import Mathlib

/-
  Verification of the call-session bridge in `main.py` (Twilio media-stream ↔
  OpenAI realtime speech bridge).

  The per-session closure variables of `handle_media_stream` become the fields
  of `SessionState`; each pump's per-event body becomes a pure step function
  returning the updated state together with the messages sent on each socket.
-/

namespace SpeechBridge

/-- The per-call mutable record: the closure variables declared in
`handle_media_stream` (`stream_sid`, `latest_media_timestamp`,
`last_assistant_item`, `mark_queue`, `response_start_timestamp_twilio`). -/
structure SessionState where
  stream_sid : Option String
  latest_media_timestamp : Int
  last_assistant_item : Option String
  mark_queue : List String
  response_start_timestamp_twilio : Option Int
deriving DecidableEq, Repr

/-- The state right after the two websockets are connected:
`stream_sid = None`, `latest_media_timestamp = 0`, `last_assistant_item = None`,
`mark_queue = []`, `response_start_timestamp_twilio = None`. -/
def initialState : SessionState :=
  { stream_sid := none
  , latest_media_timestamp := 0
  , last_assistant_item := none
  , mark_queue := []
  , response_start_timestamp_twilio := none }

/-- Python truthiness of an `Optional[str]` value: `None` and `""` are falsy. -/
def optStrTruthy : Option String → Bool
  | none => false
  | some s => s != ""

/-- Events arriving on the Twilio websocket (parsed from `data["event"]`):
`start` carries `data["start"]["streamSid"]`, `media` carries the base64
payload and the integer timestamp, `mark` is a playback acknowledgment,
`stop` and any unrecognized event fall through the `if/elif` chain. -/
inductive TwilioEvent
  | start (streamSid : String)
  | media (payload : String) (timestamp : Int)
  | mark (name : String)
  | stop
deriving DecidableEq, Repr

/-- Events arriving on the OpenAI websocket that the bridge reacts to:
`response.audio.delta` (with a `delta` field and possibly an `item_id`),
`input_audio_buffer.speech_started`, and everything else. -/
inductive OpenAIEvent
  | audioDelta (delta : String) (item_id : Option String)
  | speechStarted
  | otherEvent (etype : String)
deriving DecidableEq, Repr

/-- Messages the bridge sends on the OpenAI websocket. -/
inductive ToOpenAI
  | inputAudioBufferAppend (audio : String)
  | truncateMsg (item_id : Option String) (content_index : Int) (audio_end_ms : Int)
deriving DecidableEq, Repr

/-- JSON frames the bridge sends on the Twilio websocket. -/
inductive ToTwilio
  | mediaFrame (streamSid : Option String) (payload : String)
  | markFrame (streamSid : Option String) (name : String)
  | clearFrame (streamSid : Option String)
deriving DecidableEq, Repr

/-- One iteration of the `receive_from_twilio` event loop, for one parsed
message.  `openaiOpen` models `openai_ws.open` at the moment the event is
handled.  Mirrors the `if/elif` chain: `start` overwrites `stream_sid` and
resets the timestamp/response state; `media` (only when the OpenAI socket is
open) stores the timestamp and forwards the payload unchanged inside an
`input_audio_buffer.append` message; `mark` pops the head of `mark_queue`
when the queue is non-empty; everything else does nothing. -/
def receive_from_twilio (openaiOpen : Bool) (st : SessionState) (ev : TwilioEvent) :
    SessionState × List ToOpenAI :=
  match ev with
  | TwilioEvent.start sid =>
      ({ st with stream_sid := some sid
               , latest_media_timestamp := 0
               , last_assistant_item := none
               , response_start_timestamp_twilio := none }, [])
  | TwilioEvent.media payload ts =>
      if openaiOpen then
        ({ st with latest_media_timestamp := ts },
         [ToOpenAI.inputAudioBufferAppend payload])
      else (st, [])
  | TwilioEvent.mark _ =>
      match st.mark_queue with
      | [] => (st, [])
      | _ :: rest => ({ st with mark_queue := rest }, [])
  | TwilioEvent.stop => (st, [])

/-- The `send_mark` helper: only when `sid` is truthy, send a
`mark` frame named `"responsePart"` and append that name to `mark_queue`. -/
def send_mark (st : SessionState) (sid : Option String) :
    SessionState × List ToTwilio :=
  if optStrTruthy sid then
    ({ st with mark_queue := st.mark_queue ++ ["responsePart"] },
     [ToTwilio.markFrame sid "responsePart"])
  else (st, [])

/-- The `handle_interrupt` coroutine: when `mark_queue` is non-empty and
`response_start_timestamp_twilio` is not `None`, compute
`elapsed_ms = latest_media_timestamp - response_start_timestamp_twilio`
(no clamping in the source), send `conversation.item.truncate` with that
offset, send a `clear` frame to Twilio, and reset `mark_queue`,
`last_assistant_item` and `response_start_timestamp_twilio` with three
consecutive synchronous statements; otherwise do nothing. -/
def handle_interrupt (st : SessionState) :
    SessionState × List ToOpenAI × List ToTwilio :=
  match st.mark_queue, st.response_start_timestamp_twilio with
  | _ :: _, some rst =>
      ({ st with mark_queue := []
               , last_assistant_item := none
               , response_start_timestamp_twilio := none },
       [ToOpenAI.truncateMsg st.last_assistant_item 0
          (st.latest_media_timestamp - rst)],
       [ToTwilio.clearFrame st.stream_sid])
  | _, _ => (st, [], [])

/-- One iteration of the `send_to_twilio` event loop, for one parsed OpenAI
message.  An audio delta sends a `media` frame carrying the delta payload
unchanged and tagged with the current `stream_sid`, captures
`response_start_timestamp_twilio` when it is `None`, records a truthy
`item_id` into `last_assistant_item`, then calls `send_mark`.
A `speech_started` event calls `handle_interrupt` only when
`last_assistant_item` is truthy. -/
def send_to_twilio (st : SessionState) (ev : OpenAIEvent) :
    SessionState × List ToOpenAI × List ToTwilio :=
  match ev with
  | OpenAIEvent.audioDelta delta item_id =>
      let st1 :=
        match st.response_start_timestamp_twilio with
        | none => { st with response_start_timestamp_twilio :=
                              some st.latest_media_timestamp }
        | some _ => st
      let st2 :=
        if optStrTruthy item_id then { st1 with last_assistant_item := item_id }
        else st1
      let r := send_mark st2 st2.stream_sid
      (r.1, [], ToTwilio.mediaFrame st.stream_sid delta :: r.2)
  | OpenAIEvent.speechStarted =>
      if optStrTruthy st.last_assistant_item then handle_interrupt st
      else (st, [], [])
  | OpenAIEvent.otherEvent _ => (st, [], [])

/-- An event of either pump: from Twilio (with the observed openness of the
OpenAI socket at that moment) or from OpenAI. -/
inductive BridgeEvent
  | fromTwilio (openaiOpen : Bool) (ev : TwilioEvent)
  | fromOpenAI (ev : OpenAIEvent)
deriving DecidableEq, Repr

/-- Dispatch one bridge event to the pump that handles it. -/
def stepBridge (st : SessionState) (ev : BridgeEvent) :
    SessionState × List ToOpenAI × List ToTwilio :=
  match ev with
  | BridgeEvent.fromTwilio o tev =>
      let r := receive_from_twilio o st tev
      (r.1, r.2, [])
  | BridgeEvent.fromOpenAI oev => send_to_twilio st oev

/-- Run the bridge over a whole interleaved event trace, collecting the
messages sent on each socket in order. -/
def runBridge (st : SessionState) :
    List BridgeEvent → SessionState × List ToOpenAI × List ToTwilio
  | [] => (st, [], [])
  | ev :: evs =>
      let r1 := stepBridge st ev
      let r2 := runBridge r1.1 evs
      (r2.1, r1.2.1 ++ r2.2.1, r1.2.2 ++ r2.2.2)

/-- The system-prompt text built in `initialize_session` from the selected
language. -/
def session_instructions (lang : String) : String :=
  "You are an AI answering calls on a tip line. Greet the caller and ask for details. " ++
  "Be helpful, respectful, and never assume information that has not been said. " ++
  "Your responses should be concise and natural-sounding. " ++
  "You must conduct the entire conversation in " ++
  (if lang = "es" then "Spanish" else "English") ++ "."

/-- The JSON object sent by `initialize_session`, as its key/value pairs:
`json.dumps` of a dict with exactly the keys `"type"` (value
`"session.create"`) and `"instructions"`. -/
def init_session_msg (lang : String) : List (String × String) :=
  [("type", "session.create"), ("instructions", session_instructions lang)]

/-- The synthetic user prompt chosen in `send_initial_conversation_item`:
`prompts.get(lang, prompts["en"])`. -/
def initial_prompt (lang : String) : String :=
  if lang = "es" then
    "Por favor, saluda al llamante en español y pregunta en qué puedes ayudar."
  else
    "Please greet the caller in English and ask how you can help."

/-- The AI-channel setup messages, in order. -/
inductive SetupMsg
  | sessionMsg (fields : List (String × String))
  | convItemCreate (role : String) (text : String)
  | responseCreate
deriving DecidableEq, Repr

/-- The sequence of messages `handle_media_stream` sends on the OpenAI socket
before starting the two pumps: `initialize_session`, then
`send_initial_conversation_item` (a `conversation.item.create` followed by a
`response.create`). -/
def handle_media_stream_setup (lang : String) : List SetupMsg :=
  [SetupMsg.sessionMsg (init_session_msg lang),
   SetupMsg.convItemCreate "user" (initial_prompt lang),
   SetupMsg.responseCreate]

/-- Recognizer for outbound `audio-delta` events in a bridge trace. -/
def isDeltaEvent : BridgeEvent → Bool
  | BridgeEvent.fromOpenAI (OpenAIEvent.audioDelta _ _) => true
  | _ => false

/-- Recognizer for inbound playback acknowledgments in a bridge trace. -/
def isMarkAck : BridgeEvent → Bool
  | BridgeEvent.fromTwilio _ (TwilioEvent.mark _) => true
  | _ => false

/-- Number of outbound `audio-delta` events in a trace. -/
def countDeltas (evs : List BridgeEvent) : Nat :=
  (evs.filter isDeltaEvent).length

/-- Number of inbound playback acknowledgments in a trace. -/
def countAcks (evs : List BridgeEvent) : Nat :=
  (evs.filter isMarkAck).length

/-- Invariant tying the mark queue to the stream id: marks are only ever
enqueued under a truthy `stream_sid`, so a non-empty queue implies the
stream id has been set. -/
def markQueueSid (st : SessionState) : Prop :=
  st.mark_queue ≠ [] → st.stream_sid ≠ none

/-- Outbound Twilio frames that must never carry a null stream id: `mark`
and `clear` frames.  `media` frames are unconstrained here. -/
def guardedFrame : ToTwilio → Prop
  | ToTwilio.markFrame sid _ => sid ≠ none
  | ToTwilio.clearFrame sid => sid ≠ none
  | ToTwilio.mediaFrame _ _ => True

/-! Helper lemmas -/

theorem optStrTruthy_ne_none {s : Option String}
    (h : optStrTruthy s = true) : s ≠ none := by
  cases s with
  | none => simp [optStrTruthy] at h
  | some v => simp

theorem delta_step_state (st : SessionState) (d : String) (i : Option String)
    (h : optStrTruthy st.stream_sid = true) :
    (send_to_twilio st (OpenAIEvent.audioDelta d i)).1.mark_queue
        = st.mark_queue ++ ["responsePart"]
    ∧ (send_to_twilio st (OpenAIEvent.audioDelta d i)).1.stream_sid
        = st.stream_sid := by
  cases hr : st.response_start_timestamp_twilio <;>
    cases hti : optStrTruthy i <;>
      simp [send_to_twilio, send_mark, h, hr, hti]

theorem delta_step_out_true (st : SessionState) (d : String) (i : Option String)
    (h : optStrTruthy st.stream_sid = true) :
    (send_to_twilio st (OpenAIEvent.audioDelta d i)).2.2
      = [ToTwilio.mediaFrame st.stream_sid d,
         ToTwilio.markFrame st.stream_sid "responsePart"] := by
  cases hr : st.response_start_timestamp_twilio <;>
    cases hti : optStrTruthy i <;>
      simp [send_to_twilio, send_mark, h, hr, hti]

theorem delta_step_false (st : SessionState) (d : String) (i : Option String)
    (h : optStrTruthy st.stream_sid = false) :
    (send_to_twilio st (OpenAIEvent.audioDelta d i)).1.mark_queue
        = st.mark_queue
    ∧ (send_to_twilio st (OpenAIEvent.audioDelta d i)).1.stream_sid
        = st.stream_sid
    ∧ (send_to_twilio st (OpenAIEvent.audioDelta d i)).2.2
        = [ToTwilio.mediaFrame st.stream_sid d] := by
  cases hr : st.response_start_timestamp_twilio <;>
    cases hti : optStrTruthy i <;>
      simp [send_to_twilio, send_mark, h, hr, hti]

theorem stepBridge_guard (st : SessionState) (ev : BridgeEvent)
    (hInv : markQueueSid st) :
    markQueueSid (stepBridge st ev).1
    ∧ ∀ f ∈ (stepBridge st ev).2.2, guardedFrame f := by
  cases ev with
  | fromTwilio o tev =>
      cases tev with
      | start sid =>
          have hstep :
              stepBridge st (BridgeEvent.fromTwilio o (TwilioEvent.start sid))
                = ({ st with stream_sid := some sid
                           , latest_media_timestamp := 0
                           , last_assistant_item := none
                           , response_start_timestamp_twilio := none },
                   [], []) := rfl
          rw [hstep]
          exact ⟨fun _ => by simp, by simp⟩
      | media p t =>
          cases o with
          | false =>
              have hstep :
                  stepBridge st
                      (BridgeEvent.fromTwilio false (TwilioEvent.media p t))
                    = (st, [], []) := rfl
              rw [hstep]
              exact ⟨hInv, by simp⟩
          | true =>
              have hstep :
                  stepBridge st
                      (BridgeEvent.fromTwilio true (TwilioEvent.media p t))
                    = ({ st with latest_media_timestamp := t },
                       [ToOpenAI.inputAudioBufferAppend p], []) := rfl
              rw [hstep]
              exact ⟨fun h => hInv h, by simp⟩
      | mark n =>
          cases hmq : st.mark_queue with
          | nil =>
              have hstep :
                  stepBridge st (BridgeEvent.fromTwilio o (TwilioEvent.mark n))
                    = (st, [], []) := by
                simp [stepBridge, receive_from_twilio, hmq]
              rw [hstep]
              exact ⟨hInv, by simp⟩
          | cons x xs =>
              have hstep :
                  stepBridge st (BridgeEvent.fromTwilio o (TwilioEvent.mark n))
                    = ({ st with mark_queue := xs }, [], []) := by
                simp [stepBridge, receive_from_twilio, hmq]
              rw [hstep]
              refine ⟨?_, by simp⟩
              intro _
              exact hInv (by rw [hmq]; simp)
      | stop =>
          have hstep :
              stepBridge st (BridgeEvent.fromTwilio o TwilioEvent.stop)
                = (st, [], []) := rfl
          rw [hstep]
          exact ⟨hInv, by simp⟩
  | fromOpenAI oev =>
      simp only [stepBridge]
      cases oev with
      | audioDelta d i =>
          cases hs : optStrTruthy st.stream_sid with
          | true =>
              have hq := (delta_step_state st d i hs).1
              have hsd := (delta_step_state st d i hs).2
              have hout := delta_step_out_true st d i hs
              refine ⟨?_, ?_⟩
              · intro _
                rw [hsd]
                exact optStrTruthy_ne_none hs
              · intro f hf
                rw [hout] at hf
                rcases List.mem_cons.mp hf with rfl | hf2
                · trivial
                · rcases List.mem_cons.mp hf2 with rfl | hf3
                  · exact optStrTruthy_ne_none hs
                  · simp at hf3
          | false =>
              have hd := delta_step_false st d i hs
              refine ⟨?_, ?_⟩
              · intro h
                rw [hd.2.1]
                exact hInv (by rw [← hd.1]; exact h)
              · intro f hf
                rw [hd.2.2] at hf
                rcases List.mem_cons.mp hf with rfl | hf2
                · trivial
                · simp at hf2
      | speechStarted =>
          cases hl : optStrTruthy st.last_assistant_item with
          | false =>
              have hstep :
                  send_to_twilio st OpenAIEvent.speechStarted = (st, [], []) := by
                simp [send_to_twilio, hl]
              rw [hstep]
              exact ⟨hInv, by simp⟩
          | true =>
              cases hmq : st.mark_queue with
              | nil =>
                  have hstep :
                      send_to_twilio st OpenAIEvent.speechStarted
                        = (st, [], []) := by
                    cases hr : st.response_start_timestamp_twilio <;>
                      simp [send_to_twilio, handle_interrupt, hl, hmq, hr]
                  rw [hstep]
                  exact ⟨hInv, by simp⟩
              | cons x xs =>
                  cases hr : st.response_start_timestamp_twilio with
                  | none =>
                      have hstep :
                          send_to_twilio st OpenAIEvent.speechStarted
                            = (st, [], []) := by
                        simp [send_to_twilio, handle_interrupt, hl, hmq, hr]
                      rw [hstep]
                      exact ⟨hInv, by simp⟩
                  | some r =>
                      have hsid : st.stream_sid ≠ none :=
                        hInv (by rw [hmq]; simp)
                      have hstep :
                          send_to_twilio st OpenAIEvent.speechStarted
                            = ({ st with mark_queue := []
                                       , last_assistant_item := none
                                       , response_start_timestamp_twilio := none },
                               [ToOpenAI.truncateMsg st.last_assistant_item 0
                                  (st.latest_media_timestamp - r)],
                               [ToTwilio.clearFrame st.stream_sid]) := by
                        simp [send_to_twilio, handle_interrupt, hl, hmq, hr]
                      rw [hstep]
                      refine ⟨?_, ?_⟩
                      · intro h
                        exact absurd rfl h
                      · intro f hf
                        rcases List.mem_cons.mp hf with rfl | hf2
                        · exact hsid
                        · simp at hf2
      | otherEvent t =>
          exact ⟨hInv, by simp [send_to_twilio]⟩

theorem runBridge_guard (evs : List BridgeEvent) :
    ∀ st : SessionState, markQueueSid st →
      markQueueSid (runBridge st evs).1
      ∧ ∀ f ∈ (runBridge st evs).2.2, guardedFrame f := by
  induction evs with
  | nil => exact fun st h => ⟨h, by simp [runBridge]⟩
  | cons e rest ih =>
      intro st h
      have h1 := stepBridge_guard st e h
      have h2 := ih (stepBridge st e).1 h1.1
      refine ⟨h2.1, ?_⟩
      intro f hf
      have hf' : f ∈ (stepBridge st e).2.2 ++ (runBridge (stepBridge st e).1 rest).2.2 := hf
      rcases List.mem_append.mp hf' with h' | h'
      · exact h1.2 f h'
      · exact h2.2 f h'

/-! Theorems -/

/-- Claim C2, counterexample: an inbound `media` event with payload `"QUJD"`
is forwarded to the OpenAI channel carrying exactly the byte string `"QUJD"`
— the payload is forwarded unconverted, with no µ-law-to-PCM transcoding
step, contradicting the claim that it is never forwarded unconverted. -/
theorem c2_media_forwarded_verbatim_cex :
    receive_from_twilio true initialState (TwilioEvent.media "QUJD" 0)
      = ({ initialState with latest_media_timestamp := 0 },
         [ToOpenAI.inputAudioBufferAppend "QUJD"]) := by
  rfl

/-- Claim C2, amended: for every inbound `media` event handled while the
OpenAI socket is open, the bridge updates `latest_media_timestamp` and
forwards the payload verbatim inside a single `input_audio_buffer.append`
message; no transcoding function is applied to the payload. -/
theorem c2_media_forwarded_verbatim (st : SessionState) (p : String) (t : Int) :
    receive_from_twilio true st (TwilioEvent.media p t)
      = ({ st with latest_media_timestamp := t },
         [ToOpenAI.inputAudioBufferAppend p]) := by
  rfl

/-- Claim C3, counterexample: starting from the initial state, the trace
`start "A"`, `media ts=100`, `audio-delta item "r1"`, `media ts=50`,
`speech_started` makes the bridge send `conversation.item.truncate` with
`audio_end_ms = -50`: the elapsed offset is not clamped to 0 and a negative
value is sent when `latest_media_timestamp < response_start_timestamp`. -/
theorem c3_negative_offset_cex :
    (runBridge initialState
        [BridgeEvent.fromTwilio true (TwilioEvent.start "A"),
         BridgeEvent.fromTwilio true (TwilioEvent.media "p1" 100),
         BridgeEvent.fromOpenAI (OpenAIEvent.audioDelta "Y" (some "r1")),
         BridgeEvent.fromTwilio true (TwilioEvent.media "p2" 50),
         BridgeEvent.fromOpenAI OpenAIEvent.speechStarted]).2.1
      = [ToOpenAI.inputAudioBufferAppend "p1",
         ToOpenAI.inputAudioBufferAppend "p2",
         ToOpenAI.truncateMsg (some "r1") 0 (-50)]
    ∧ (-50 : Int) < 0 := by
  constructor
  · rfl
  · decide

/-- Claim C3, amended: for every interruption handled while
`last_assistant_item_id` is truthy, `mark_queue` is non-empty and
`response_start_timestamp` is set, the `audio_end_ms` sent in the truncate
message equals `latest_media_timestamp - response_start_timestamp` with no
clamping, so it is negative whenever
`latest_media_timestamp < response_start_timestamp`. -/
theorem c3_offset_unclamped (st : SessionState) (r : Int)
    (hr : st.response_start_timestamp_twilio = some r)
    (hq : st.mark_queue ≠ [])
    (hl : optStrTruthy st.last_assistant_item = true) :
    send_to_twilio st OpenAIEvent.speechStarted
      = ({ st with mark_queue := []
                 , last_assistant_item := none
                 , response_start_timestamp_twilio := none },
         [ToOpenAI.truncateMsg st.last_assistant_item 0
            (st.latest_media_timestamp - r)],
         [ToTwilio.clearFrame st.stream_sid]) := by
  cases hmq : st.mark_queue with
  | nil => exact absurd hmq hq
  | cons x xs =>
      simp only [send_to_twilio, hl, if_pos, handle_interrupt, hmq, hr]

/-- Witness for `c3_offset_unclamped` at a concrete state where the caller
timestamp has fallen below the captured response start. -/
theorem c3_offset_unclamped_witness :
    send_to_twilio
        (SessionState.mk (some "A") 50 (some "r1") ["responsePart"] (some 100))
        OpenAIEvent.speechStarted
      = (SessionState.mk (some "A") 50 none [] none,
         [ToOpenAI.truncateMsg (some "r1") 0 (-50)],
         [ToTwilio.clearFrame (some "A")]) := by
  exact c3_offset_unclamped
    (SessionState.mk (some "A") 50 (some "r1") ["responsePart"] (some 100))
    100 rfl (by decide) (by decide)

/-- Claim C6, counterexample: an inbound `media` event arriving before any
`start` event (so `stream_sid` is still `None`) is not dropped: the payload
is forwarded to the OpenAI channel and `latest_media_timestamp` is updated,
contradicting the claim that nothing is forwarded and state is unchanged. -/
theorem c6_media_before_start_cex :
    receive_from_twilio true initialState (TwilioEvent.media "X" 7)
      = ({ initialState with latest_media_timestamp := 7 },
         [ToOpenAI.inputAudioBufferAppend "X"])
    ∧ ([ToOpenAI.inputAudioBufferAppend "X"] : List ToOpenAI) ≠ [] := by
  constructor
  · rfl
  · decide

/-- Claim C6, amended: a `media` event arriving before `start` is handled
without crashing the pump but is processed rather than dropped — when the
OpenAI socket is open it updates `latest_media_timestamp` and forwards the
payload — and a subsequent `start` event is still honored: `stream_sid` is
populated from it (and the timestamp and response state reset). -/
theorem c6_media_before_start (p : String) (t : Int) (sid : String) (o : Bool) :
    runBridge initialState
        [BridgeEvent.fromTwilio true (TwilioEvent.media p t),
         BridgeEvent.fromTwilio o (TwilioEvent.start sid)]
      = (SessionState.mk (some sid) 0 none [] none,
         [ToOpenAI.inputAudioBufferAppend p], []) := by
  rfl

/-- Claim C7, confirmed: a `speech_started` event received while
`last_assistant_item` is `None` emits no message on either socket and leaves
the session state unchanged. -/
theorem c7_speech_started_noop (st : SessionState)
    (h : st.last_assistant_item = none) :
    send_to_twilio st OpenAIEvent.speechStarted = (st, [], []) := by
  simp [send_to_twilio, h, optStrTruthy]

/-- Witness for `c7_speech_started_noop` at the initial state. -/
theorem c7_speech_started_noop_witness :
    send_to_twilio initialState OpenAIEvent.speechStarted
      = (initialState, [], []) :=
  c7_speech_started_noop initialState rfl

/-- Claim C8, counterexample: two successive `start` events with stream ids
`"A"` then `"B"` leave `stream_sid = "B"` — the later `start` overwrites the
identifier, contradicting "first start event wins". -/
theorem c8_second_start_overwrites_cex :
    (runBridge initialState
        [BridgeEvent.fromTwilio true (TwilioEvent.start "A"),
         BridgeEvent.fromTwilio true (TwilioEvent.start "B")]).1.stream_sid
      = some "B"
    ∧ (some "B" : Option String) ≠ some "A" := by
  constructor
  · rfl
  · decide

/-- Claim C8, amended: every `start` event overwrites `stream_sid` with its
`streamSid` (the last `start` event wins, not the first) and also resets
`latest_media_timestamp` to 0 and the interruption state to `None`. -/
theorem c8_every_start_overwrites (st : SessionState) (sid : String) (o : Bool) :
    receive_from_twilio o st (TwilioEvent.start sid)
      = ({ st with stream_sid := some sid
                 , latest_media_timestamp := 0
                 , last_assistant_item := none
                 , response_start_timestamp_twilio := none }, []) := by
  rfl

/-- Claim C10, confirmed: an inbound `media` event handled while the OpenAI
socket is not open causes no send on that socket and leaves the whole
session state — in particular `latest_media_timestamp` — unchanged. -/
theorem c10_media_skipped_when_closed (st : SessionState) (p : String) (t : Int) :
    receive_from_twilio false st (TwilioEvent.media p t) = (st, []) := by
  rfl

/-- Claim C1, confirmed: from a state with a truthy `stream_sid`, empty
`mark_queue`, unset `response_start_timestamp` and
`latest_media_timestamp = T0`, one `audio-delta` (carrying a non-empty
`item_id`) captures `response_start_timestamp = T0` and leaves one pending
playback mark; after the caller timestamp advances to `T1 ≥ T0` via a
`media` event, the `speech_started` event is handled in one transition that
sends `conversation.item.truncate` with `audio_end_ms = T1 - T0 ≥ 0` to the
OpenAI channel, sends a `clear` frame to the Twilio leg, and resets
`mark_queue` to empty, `last_assistant_item` to `None` and
`response_start_timestamp` to `None` together (in the source these are three
consecutive synchronous statements with no `await` between them). -/
theorem c1_single_delta_interrupt (st0 : SessionState)
    (sid i d p : String) (T0 T1 : Int)
    (hsid : st0.stream_sid = some sid) (hs : sid ≠ "")
    (hq : st0.mark_queue = [])
    (hr : st0.response_start_timestamp_twilio = none)
    (hl : st0.latest_media_timestamp = T0)
    (hi : i ≠ "") (hT : T0 ≤ T1) :
    send_to_twilio
        (receive_from_twilio true
            (send_to_twilio st0 (OpenAIEvent.audioDelta d (some i))).1
            (TwilioEvent.media p T1)).1
        OpenAIEvent.speechStarted
      = (SessionState.mk (some sid) T1 none [] none,
         [ToOpenAI.truncateMsg (some i) 0 (T1 - T0)],
         [ToTwilio.clearFrame (some sid)])
    ∧ 0 ≤ T1 - T0 := by
  obtain ⟨s0, l0, a0, q0, r0⟩ := st0
  simp only [SessionState.mk.injEq] at hsid hq hr hl
  subst hsid hq hr hl
  constructor
  · simp [send_to_twilio, send_mark, receive_from_twilio, handle_interrupt,
      optStrTruthy, hi, hs]
  · omega

/-- Witness for `c1_single_delta_interrupt` at `sid = "A"`, item `"r1"`,
`T0 = 5`, `T1 = 9`. -/
theorem c1_single_delta_interrupt_witness :
    send_to_twilio
        (receive_from_twilio true
            (send_to_twilio (SessionState.mk (some "A") 5 none [] none)
              (OpenAIEvent.audioDelta "Y" (some "r1"))).1
            (TwilioEvent.media "X" 9)).1
        OpenAIEvent.speechStarted
      = (SessionState.mk (some "A") 9 none [] none,
         [ToOpenAI.truncateMsg (some "r1") 0 (9 - 5)],
         [ToTwilio.clearFrame (some "A")])
    ∧ (0 : Int) ≤ 9 - 5 :=
  c1_single_delta_interrupt (SessionState.mk (some "A") 5 none [] none)
    "A" "r1" "Y" "X" 5 9 rfl (by decide) rfl rfl rfl (by decide) (by decide)

/-- Claim C9, counterexample: the initialization message actually sent has
`"type": "session.create"`, not `"session.update"`, and carries no
`"turn_detection"` key, no `"session"` object and no `"voice"` key. -/
theorem c9_init_message_cex :
    List.lookup "type" (init_session_msg "en") = some "session.create"
    ∧ (some "session.create" : Option String) ≠ some "session.update"
    ∧ List.lookup "turn_detection" (init_session_msg "en") = none
    ∧ List.lookup "session" (init_session_msg "en") = none
    ∧ List.lookup "voice" (init_session_msg "en") = none := by
  refine ⟨rfl, by decide, rfl, rfl, rfl⟩

/-- Claim C9, amended: before the pumps run, the first message the bridge
sends on the OpenAI channel is the initialization message, which has type
`"session.create"` and a top-level `"instructions"` field derived from the
selected language (the Spanish text for `"es"`, the English text for every
other language), with no turn-detection configuration and no voice id; it is
followed by the `conversation.item.create` and `response.create` messages. -/
theorem c9_init_message (lang : String) :
    (handle_media_stream_setup lang).head?
        = some (SetupMsg.sessionMsg (init_session_msg lang))
    ∧ List.lookup "type" (init_session_msg lang) = some "session.create"
    ∧ List.lookup "instructions" (init_session_msg lang)
        = some (session_instructions lang)
    ∧ List.lookup "turn_detection" (init_session_msg lang) = none
    ∧ List.lookup "voice" (init_session_msg lang) = none
    ∧ (lang ≠ "es" → session_instructions lang = session_instructions "en")
    ∧ (handle_media_stream_setup lang).drop 1
        = [SetupMsg.convItemCreate "user" (initial_prompt lang),
           SetupMsg.responseCreate] := by
  refine ⟨rfl, rfl, rfl, rfl, rfl, ?_, rfl⟩
  intro h
  simp [session_instructions, h]

/-- Witness for `c9_init_message` at the non-Spanish language `"fr"`,
discharging the language-derivation implication there. -/
theorem c9_init_message_witness :
    List.lookup "type" (init_session_msg "fr") = some "session.create"
    ∧ session_instructions "fr" = session_instructions "en" :=
  ⟨(c9_init_message "fr").2.1, (c9_init_message "fr").2.2.2.2.2.1 (by decide)⟩

/-- Claim C5, counterexample: an `audio-delta` arriving from OpenAI before
any `start` event (the initial state, `stream_sid = None`) makes the bridge
send a `media` frame whose `streamSid` is null — outbound frames are not all
withheld until `stream_id` is set. -/
theorem c5_null_stream_media_cex :
    (runBridge initialState
        [BridgeEvent.fromOpenAI (OpenAIEvent.audioDelta "Y" (some "r1"))]).2.2
      = [ToTwilio.mediaFrame none "Y"]
    ∧ initialState.stream_sid = none := by
  exact ⟨rfl, rfl⟩

/-- Claim C5, amended: in every session run from the initial state, `mark`
and `clear` frames are never sent with a null `streamSid` (marks are guarded
by `if stream_sid`, and a `clear` is reachable only when a mark is pending,
which requires the stream id to have been set), but `media` frames carry
whatever `stream_sid` currently holds — including null before `start`. -/
theorem c5_mark_clear_never_null (evs : List BridgeEvent) (f : ToTwilio)
    (hf : f ∈ (runBridge initialState evs).2.2) :
    guardedFrame f :=
  (runBridge_guard evs initialState (fun h => absurd rfl h)).2 f hf

/-- Witness for `c5_mark_clear_never_null`: the mark frame produced by an
`audio-delta` after `start "A"` is guarded. -/
theorem c5_mark_clear_never_null_witness :
    guardedFrame (ToTwilio.markFrame (some "A") "responsePart") :=
  c5_mark_clear_never_null
    [BridgeEvent.fromTwilio true (TwilioEvent.start "A"),
     BridgeEvent.fromOpenAI (OpenAIEvent.audioDelta "Y" (some "r1"))]
    (ToTwilio.markFrame (some "A") "responsePart")
    (by decide)

theorem countDeltas_nil : countDeltas [] = 0 := rfl

theorem countAcks_nil : countAcks [] = 0 := rfl

theorem countDeltas_cons_delta (d : String) (i : Option String)
    (l : List BridgeEvent) :
    countDeltas (BridgeEvent.fromOpenAI (OpenAIEvent.audioDelta d i) :: l)
      = countDeltas l + 1 := by
  simp [countDeltas, List.filter_cons, isDeltaEvent]

theorem countAcks_cons_delta (d : String) (i : Option String)
    (l : List BridgeEvent) :
    countAcks (BridgeEvent.fromOpenAI (OpenAIEvent.audioDelta d i) :: l)
      = countAcks l := by
  simp [countAcks, List.filter_cons, isMarkAck]

theorem countDeltas_cons_ack (o : Bool) (n : String) (l : List BridgeEvent) :
    countDeltas (BridgeEvent.fromTwilio o (TwilioEvent.mark n) :: l)
      = countDeltas l := by
  simp [countDeltas, List.filter_cons, isDeltaEvent]

theorem countAcks_cons_ack (o : Bool) (n : String) (l : List BridgeEvent) :
    countAcks (BridgeEvent.fromTwilio o (TwilioEvent.mark n) :: l)
      = countAcks l + 1 := by
  simp [countAcks, List.filter_cons, isMarkAck]

theorem isDeltaEvent_shape {e : BridgeEvent} (h : isDeltaEvent e = true) :
    ∃ d i, e = BridgeEvent.fromOpenAI (OpenAIEvent.audioDelta d i) := by
  cases e with
  | fromTwilio o tev => simp [isDeltaEvent] at h
  | fromOpenAI oev =>
      cases oev with
      | audioDelta d i => exact ⟨d, i, rfl⟩
      | speechStarted => simp [isDeltaEvent] at h
      | otherEvent t => simp [isDeltaEvent] at h

theorem isMarkAck_shape {e : BridgeEvent} (h : isMarkAck e = true) :
    ∃ o n, e = BridgeEvent.fromTwilio o (TwilioEvent.mark n) := by
  cases e with
  | fromOpenAI oev => simp [isMarkAck] at h
  | fromTwilio o tev =>
      cases tev with
      | mark n => exact ⟨o, n, rfl⟩
      | start sid => simp [isMarkAck] at h
      | media p t => simp [isMarkAck] at h
      | stop => simp [isMarkAck] at h

theorem runBridge_queue_balance (evs : List BridgeEvent) :
    ∀ st : SessionState,
      (∀ e ∈ evs, isDeltaEvent e = true ∨ isMarkAck e = true) →
      optStrTruthy st.stream_sid = true →
      (∀ k, countAcks (List.take k evs)
              ≤ st.mark_queue.length + countDeltas (List.take k evs)) →
      (runBridge st evs).1.mark_queue.length + countAcks evs
        = st.mark_queue.length + countDeltas evs := by
  induction evs with
  | nil =>
      intro st _ _ _
      simp [runBridge, countAcks_nil, countDeltas_nil]
  | cons e rest ih =>
      intro st hAll hsid hpre
      have hrest : ∀ e' ∈ rest, isDeltaEvent e' = true ∨ isMarkAck e' = true :=
        fun e' he' => hAll e' (List.mem_cons_of_mem _ he')
      have hrun1 : (runBridge st (e :: rest)).1
          = (runBridge (stepBridge st e).1 rest).1 := rfl
      rcases hAll e (List.mem_cons_self e rest) with hd | ha
      · obtain ⟨d, i, rfl⟩ := isDeltaEvent_shape hd
        have hstep : stepBridge st
            (BridgeEvent.fromOpenAI (OpenAIEvent.audioDelta d i))
            = send_to_twilio st (OpenAIEvent.audioDelta d i) := rfl
        have hq := (delta_step_state st d i hsid).1
        have hsd := (delta_step_state st d i hsid).2
        have hlen : (stepBridge st
            (BridgeEvent.fromOpenAI (OpenAIEvent.audioDelta d i))).1.mark_queue.length
            = st.mark_queue.length + 1 := by
          rw [hstep, hq]; simp
        have hpre' : ∀ k, countAcks (List.take k rest)
            ≤ (stepBridge st
                (BridgeEvent.fromOpenAI (OpenAIEvent.audioDelta d i))).1.mark_queue.length
              + countDeltas (List.take k rest) := by
          intro k
          have h1 := hpre (k + 1)
          rw [List.take_succ_cons, countAcks_cons_delta, countDeltas_cons_delta]
            at h1
          omega
        have hih := ih _ hrest (by rw [hstep, hsd]; exact hsid) hpre'
        rw [hrun1, countAcks_cons_delta, countDeltas_cons_delta]
        omega
      · obtain ⟨o, n, rfl⟩ := isMarkAck_shape ha
        have h1 := hpre 1
        rw [show List.take 1 (BridgeEvent.fromTwilio o (TwilioEvent.mark n) :: rest)
              = [BridgeEvent.fromTwilio o (TwilioEvent.mark n)] from by
            rw [List.take_succ_cons, List.take_zero],
          countAcks_cons_ack, countDeltas_cons_ack, countAcks_nil,
          countDeltas_nil] at h1
        cases hmq : st.mark_queue with
        | nil => rw [hmq] at h1; simp at h1
        | cons x xs =>
            have hstep : stepBridge st
                (BridgeEvent.fromTwilio o (TwilioEvent.mark n))
                = ({ st with mark_queue := xs }, [], []) := by
              simp [stepBridge, receive_from_twilio, hmq]
            have hstep1 : (stepBridge st
                (BridgeEvent.fromTwilio o (TwilioEvent.mark n))).1
                = { st with mark_queue := xs } := by rw [hstep]
            have hpre2 : ∀ k, countAcks (List.take k rest)
                ≤ xs.length + countDeltas (List.take k rest) := by
              intro k
              have h2 := hpre (k + 1)
              rw [List.take_succ_cons, countAcks_cons_ack,
                countDeltas_cons_ack, hmq] at h2
              simp only [List.length_cons] at h2
              omega
            have hih := ih ({ st with mark_queue := xs }) hrest
              (by simpa using hsid) (by intro k; simpa using hpre2 k)
            have hih' : (runBridge { st with mark_queue := xs } rest).1.mark_queue.length
                + countAcks rest = xs.length + countDeltas rest := by
              simpa using hih
            rw [hrun1, hstep1, countAcks_cons_ack, countDeltas_cons_ack]
            simp only [List.length_cons]
            omega

/-- Claim C4, confirmed: over any trace consisting only of outbound
`audio-delta` events and inbound mark acknowledgments — with the stream id
set and, as the spec's FIFO premise states, each acknowledgment arriving
only after its mark (so no trace prefix holds more acks than deltas) — the
final `mark_queue` holds exactly `N - M` tokens (stated additively over `ℕ`
as `length + M = N`, and a list length is never negative); and every
acknowledgment removes exactly the head of the queue, a plain FIFO dequeue,
never a removal by search. -/
theorem c4_mark_queue_fifo :
    (∀ (evs : List BridgeEvent) (st : SessionState),
        (∀ e ∈ evs, isDeltaEvent e = true ∨ isMarkAck e = true) →
        optStrTruthy st.stream_sid = true →
        st.mark_queue = [] →
        (∀ k, countAcks (List.take k evs) ≤ countDeltas (List.take k evs)) →
        (runBridge st evs).1.mark_queue.length + countAcks evs
          = countDeltas evs)
    ∧ (∀ (st : SessionState) (x : String) (xs : List String)
          (n : String) (o : Bool),
        st.mark_queue = x :: xs →
        receive_from_twilio o st (TwilioEvent.mark n)
          = ({ st with mark_queue := xs }, [])) := by
  constructor
  · intro evs st hAll hsid hq hpre
    have := runBridge_queue_balance evs st hAll hsid
      (by intro k; rw [hq]; simpa using hpre k)
    rw [hq] at this
    simpa using this
  · intro st x xs n o hq
    simp [receive_from_twilio, hq]

/-- Witness for `c4_mark_queue_fifo`: over the concrete trace of one
`audio-delta` followed by one acknowledgment the queue ends empty
(`0 + 1 = 1`), and a concrete one-element queue is popped at its head. -/
theorem c4_mark_queue_fifo_witness :
    ((runBridge (SessionState.mk (some "A") 0 none [] none)
        [BridgeEvent.fromOpenAI (OpenAIEvent.audioDelta "Y" (some "r1")),
         BridgeEvent.fromTwilio true (TwilioEvent.mark "m")]).1.mark_queue.length
      + countAcks
          [BridgeEvent.fromOpenAI (OpenAIEvent.audioDelta "Y" (some "r1")),
           BridgeEvent.fromTwilio true (TwilioEvent.mark "m")]
      = countDeltas
          [BridgeEvent.fromOpenAI (OpenAIEvent.audioDelta "Y" (some "r1")),
           BridgeEvent.fromTwilio true (TwilioEvent.mark "m")])
    ∧ receive_from_twilio true
        (SessionState.mk (some "A") 0 none ["responsePart"] (some 0))
        (TwilioEvent.mark "m")
      = (SessionState.mk (some "A") 0 none [] (some 0), []) := by
  constructor
  · refine c4_mark_queue_fifo.1 _ _ ?_ (by decide) rfl ?_
    · decide
    · intro k
      match k with
      | 0 => decide
      | 1 => decide
      | Nat.succ (Nat.succ m) =>
          rw [List.take_succ_cons, List.take_succ_cons, List.take_nil]
          decide
  · exact c4_mark_queue_fifo.2
      (SessionState.mk (some "A") 0 none ["responsePart"] (some 0))
      "responsePart" [] "m" true rfl

end SpeechBridge
